import Mathlib

/-!
Verification development for the gotank client library (Go client for the
IndexTank/Searchify HTTP search API).

The development shallowly embeds the pure core of the library:
* the query builder (`src/indextank/query.go`): `queryState`, its setter
  methods, `formatRangeParam`, the parameter map built by `ToQueryParams`
  and the final `toQueryString` serialization;
* the batch result correlator (`newBatchResults` / `newBulkResults`);
* the HTTP status-code interpretation of the index client's operations
  (`CreateIndexWithOptions`, `AddDocument`, `AddDocuments`, `UpdateVariables`,
  `DeleteDocument`, `DeleteDocuments`, `AddFunction`, `DeleteFunction`,
  `doRequest`, `Exists`).

Modelling conventions:
* Go `float64`/`float32` values are carried opaquely by the library (no
  arithmetic is performed on them); they are modelled as `Rat`.  The two
  external formatting routines used on them, `fmt.Sprintf "%f"` (fixed-point,
  six decimals) and `strconv.FormatFloat v 'g' (-1) 64` (shortest
  round-trippable decimal form), are external collaborators and are passed
  in as a `FloatModel` parameter.
* Go maps are modelled as association lists with Go's assignment semantics
  (`goInsert`: update in place if the key is present, append otherwise).
  Go's map iteration order is unspecified; wherever the code iterates a map
  to produce output (`toQueryString`), theorems quantify over an arbitrary
  permutation of the map's entry list.
* `json.Marshal` of the category-filter map is an external collaborator,
  passed in as a function parameter.
* Go `panic` is modelled by `Option` (`none` = panic); fallible operations
  return `Except String` carrying the Go error message.
-/

/-- Go map assignment `m[k] = v` on an association-list representation:
update the entry in place if the key is present, append otherwise. -/
def goInsert {κ ν : Type} [BEq κ] : List (κ × ν) → κ → ν → List (κ × ν)
  | [], k, v => [(k, v)]
  | (k', v') :: t, k, v =>
      if k' == k then (k', v) :: t else (k', v') :: goInsert t k v

/-- Go map read `m[k]` (the `ok` form is recovered by matching the option). -/
def assocLookup {κ ν : Type} [BEq κ] (k : κ) : List (κ × ν) → Option ν
  | [] => none
  | (k', v) :: t => if k' == k then some v else assocLookup k t

/-- UTF-8 encoding of a character, as the list of its byte values.
Mirrors how Go strings are byte sequences processed byte-wise by
`url.QueryEscape`. -/
def utf8Bytes (c : Char) : List Nat :=
  let n := c.toNat
  if n < 0x80 then [n]
  else if n < 0x800 then [0xC0 + n / 64, 0x80 + n % 64]
  else if n < 0x10000 then
    [0xE0 + n / 4096, 0x80 + (n / 64) % 64, 0x80 + n % 64]
  else
    [0xF0 + n / 262144, 0x80 + (n / 4096) % 64, 0x80 + (n / 64) % 64,
     0x80 + n % 64]

/-- Upper-case hexadecimal digit, as used by Go's `url.QueryEscape`. -/
def hexUpperDigit (n : Nat) : Char :=
  if n < 10 then Char.ofNat (48 + n) else Char.ofNat (55 + n)

/-- Go `url.QueryEscape` keeps ASCII alphanumerics and `-_.~` unescaped. -/
def isUnreservedByte (b : Nat) : Bool :=
  (65 ≤ b && b ≤ 90) || (97 ≤ b && b ≤ 122) || (48 ≤ b && b ≤ 57) ||
    b == 45 || b == 95 || b == 46 || b == 126

/-- Escape a single byte the way Go's `url.QueryEscape` does: unreserved
bytes stay, space becomes `+`, everything else becomes `%XX`. -/
def escapeByte (b : Nat) : List Char :=
  if isUnreservedByte b then [Char.ofNat b]
  else if b == 32 then ['+']
  else ['%', hexUpperDigit (b / 16), hexUpperDigit (b % 16)]

/-- Embedding of Go's `url.QueryEscape` (percent-encoding for query
components, applied byte-wise over the UTF-8 encoding). -/
def queryEscape (s : String) : String :=
  String.mk (s.data.flatMap (fun c => (utf8Bytes c).flatMap escapeByte))

/-- Embedding of `varRange` from `query.go`: one `[variable, floor, ceil]`
range filter. -/
structure varRange where
  id : Int
  floor : Rat
  ceil : Rat
  deriving DecidableEq

/-- Embedding of `queryState` from `query.go`.  Go maps become association
lists (`goInsert` semantics), slices become lists. -/
structure queryState where
  queryString : String
  start : Int
  length : Int
  scoringFunction : Int
  fetchFields : List String
  snippetFields : List String
  queryVariables : List (Int × Rat)
  fetchCategories : Bool
  fetchVariables : Bool
  docvarFilters : List varRange
  functionFilters : List varRange
  categoryFilters : List (String × List String)
  deriving DecidableEq

/-- Embedding of `QueryForString`: the default query state for a given
query text (length 10, everything else zero/empty). -/
def QueryForString (s : String) : queryState :=
  { queryString := s
    start := 0
    length := 10
    scoringFunction := 0
    fetchFields := []
    snippetFields := []
    queryVariables := []
    fetchCategories := false
    fetchVariables := false
    docvarFilters := []
    functionFilters := []
    categoryFilters := [] }

/-- Embedding of the `Start` setter. -/
def Start (q : queryState) (start : Int) : queryState := { q with start := start }

/-- Embedding of the `NumResults` setter. -/
def NumResults (q : queryState) (length : Int) : queryState := { q with length := length }

/-- Embedding of the `FetchFields` setter (replaces the list). -/
def FetchFields (q : queryState) (fields : List String) : queryState :=
  { q with fetchFields := fields }

/-- Embedding of the `SnippetFields` setter (replaces the list). -/
def SnippetFields (q : queryState) (fields : List String) : queryState :=
  { q with snippetFields := fields }

/-- Embedding of the `FetchVariables` setter. -/
def FetchVariables (q : queryState) : queryState := { q with fetchVariables := true }

/-- Embedding of the `FetchCategories` setter. -/
def FetchCategories (q : queryState) : queryState := { q with fetchCategories := true }

/-- Embedding of the `ScoringFunction` setter (the Go method also returns the
receiver for chaining; the returned state is that receiver). -/
def ScoringFunction (q : queryState) (function : Int) : queryState :=
  { q with scoringFunction := function }

/-- Embedding of `QueryVariables`: `q.queryVariables = variables` — the whole
map is replaced by the argument. -/
def QueryVariables (q : queryState) (vars : List (Int × Rat)) : queryState :=
  { q with queryVariables := vars }

/-- Embedding of `QueryVariable`: `q.queryVariables[variable] = val` — a Go
map assignment, i.e. an upsert at that index. -/
def QueryVariable (q : queryState) (idx : Int) (val : Rat) : queryState :=
  { q with queryVariables := goInsert q.queryVariables idx val }

/-- Embedding of `DocumentVariableFilter`: appends a `varRange`. -/
def DocumentVariableFilter (q : queryState) (idx : Int) (floor ceil : Rat) : queryState :=
  { q with docvarFilters := q.docvarFilters ++ [⟨idx, floor, ceil⟩] }

/-- Embedding of `FunctionFilter`: appends a `varRange`. -/
def FunctionFilter (q : queryState) (idx : Int) (floor ceil : Rat) : queryState :=
  { q with functionFilters := q.functionFilters ++ [⟨idx, floor, ceil⟩] }

/-- Embedding of `CategoryFilter`: `for k, v := range filters { q.categoryFilters[k] = v }`
— per category name, last write wins. -/
def CategoryFilter (q : queryState) (filters : List (String × List String)) : queryState :=
  { q with categoryFilters :=
      filters.foldl (fun m kv => goInsert m kv.1 kv.2) q.categoryFilters }

/-- The two external float-formatting collaborators used by `query.go`:
`sprintfF` models `fmt.Sprintf "%f" v` (fixed-point, six decimals) and
`formatFloatG` models `strconv.FormatFloat v 'g' (-1) 64` (shortest
round-trippable decimal form). -/
structure FloatModel where
  sprintfF : Rat → String
  formatFloatG : Rat → String

/-- Embedding of `formatRangeParam` from `query.go`, including its Go
variable-shadowing behaviour: in

```
totalValue := newValue
if totalValue, ok := params[k]; ok {
    totalValue += "," + newValue
}
params[k] = totalValue
```

the `if` statement declares a NEW `totalValue` scoped to the `if` body, so
the `+=` updates that inner variable, which is discarded when the `if`
ends; the outer `totalValue` (always equal to `newValue`) is what is
stored.  The discarded computation is kept below (as `_shadowedTotal`) to
mirror the source. -/
def formatRangeParam (fm : FloatModel) (ranges : List varRange) : List (String × String) :=
  ranges.foldl
    (fun params v =>
      let k := toString v.id
      let newValue := fm.formatFloatG v.floor ++ ":" ++ fm.formatFloatG v.ceil
      let totalValue := newValue
      let _shadowedTotal :=
        match assocLookup k params with
        | some prev => prev ++ "," ++ newValue
        | none => totalValue
      goInsert params k totalValue)
    []

/-- The `params[k] = v` assignments performed by `ToQueryParams` AFTER the
unconditional `params["len"]` assignment, in source order.  Each Go `if`
guard appears as the corresponding condition; loops over maps/slices
appear as `List.map` (the assigned keys are pairwise distinct, so the
iteration order of the Go map loops does not affect the resulting map). -/
def paramsAfterLen (fm : FloatModel)
    (marshalCats : List (String × List String) → String)
    (q : queryState) : List (String × String) :=
  (if q.scoringFunction > 0 then [("function", toString q.scoringFunction)] else [])
  ++ ((if 0 < q.snippetFields.length then
        [("snippet", String.intercalate "," q.snippetFields)] else [])
  ++ ((if 0 < q.fetchFields.length then
        [("fetch", String.intercalate "," q.fetchFields)] else [])
  ++ ((if 0 < q.queryVariables.length then
        q.queryVariables.map (fun kv => ("var" ++ toString kv.1, fm.sprintfF kv.2))
      else [])
  ++ ((if q.fetchVariables then [("fetch_variables", "*")] else [])
  ++ ((if q.fetchCategories then [("fetch_categories", "*")] else [])
  ++ ((if 0 < q.categoryFilters.length then
        [("category_filters", marshalCats q.categoryFilters)] else [])
  ++ ((if 0 < q.docvarFilters.length then
        (formatRangeParam fm q.docvarFilters).map
          (fun kv => ("filter_docvar" ++ kv.1, kv.2))
      else [])
  ++ (if 0 < q.functionFilters.length then
        (formatRangeParam fm q.functionFilters).map
          (fun kv => ("filter_function" ++ kv.1, kv.2))
      else []))))))))

/-- The full sequence of `params[k] = v` assignments performed by
`ToQueryParams`, in source order: the unconditional `q` assignment, the
conditional `start` assignment, the unconditional `len` assignment, then
everything in `paramsAfterLen`. -/
def paramsSeq (fm : FloatModel)
    (marshalCats : List (String × List String) → String)
    (q : queryState) : List (String × String) :=
  [("q", q.queryString)]
  ++ ((if q.start > 0 then [("start", toString q.start)] else [])
  ++ ([("len", toString q.length)]
  ++ paramsAfterLen fm marshalCats q))

/-- The `params` map built by `ToQueryParams` (the incremental string `s`
built alongside it is dead code: the function ends with
`s = toQueryString(params)`).  The map is the result of performing the
assignments of `paramsSeq` in order. -/
def paramsMap (fm : FloatModel)
    (marshalCats : List (String × List String) → String)
    (q : queryState) : List (String × String) :=
  (paramsSeq fm marshalCats q).foldl (fun p kv => goInsert p kv.1 kv.2) []

/-- Embedding of `toQueryString`: Go iterates the map appending
`k + "=" + url.QueryEscape(v) + "&"` and slices off the final byte
(`s[0:len(s)-1]`; `&` is one byte).  The entry order is the caller-supplied
list order; the nondeterminism of Go's map iteration is expressed in the
theorems by quantifying over permutations of `paramsMap`. -/
def toQueryString (params : List (String × String)) : String :=
  let s := params.foldl (fun s kv => s ++ kv.1 ++ "=" ++ queryEscape kv.2 ++ "&") ""
  String.mk s.data.dropLast

/-- The individual `key=escapedValue` pieces of a serialized query string. -/
def qsPieces (params : List (String × String)) : List String :=
  params.map (fun kv => kv.1 ++ "=" ++ queryEscape kv.2)

/-- Join pieces with `&`; `toQueryString` is proved equal to this. -/
def ampJoin : List String → String
  | [] => ""
  | [p] => p
  | p :: q :: t => p ++ "&" ++ ampJoin (q :: t)

/-- Demonstration `FloatModel` for concrete instances: on the small integral
float64 values used in the concrete theorems below (1, 2, 3, 4, …) Go's
`fmt.Sprintf "%f" v` prints `"<n>.000000"` and
`strconv.FormatFloat v 'g' (-1) 64` prints `"<n>"`. -/
def fmDemo : FloatModel :=
  { sprintfF := fun v => toString v.num ++ ".000000"
    formatFloatG := fun v => toString v.num }

/-- Stand-in for `json.Marshal` of the category-filter map, used only in
concrete instances whose category filters are empty (so it is never
applied). -/
def mcDemo : List (String × List String) → String := fun _ => ""

/-- Embedding of `Document` from the index client.  `float32` variable
values are modelled as `Rat` (the library only carries them). -/
structure Document where
  Id : String
  Fields : List (String × String)
  Variables : List (String × Rat)
  Categories : List (String × String)
  deriving DecidableEq

/-- Embedding of `addResult`: one per-item outcome of a batch add. -/
structure addResult where
  Added : Bool
  Error : String
  deriving DecidableEq

/-- Embedding of `deleteResult`: one per-item outcome of a batch delete. -/
structure deleteResult where
  Deleted : Bool
  Error : String
  deriving DecidableEq

/-- Accumulator of the correlation loops in `newBatchResults` /
`newBulkResults` (the two Go loops are textually identical up to the
outcome field name, so the loop is factored generically: each element
pairs the submitted item with its `(success, error)` outcome). -/
structure corOut (α : Type) where
  flag : Bool
  results : List Bool
  errors : List (Nat × String)
  failed : List α

/-- The correlation loop of `newBatchResults` / `newBulkResults`,
restructured as recursion over the parallel lists (the Go `for i, v :=
range r` loop indexing `documents[i]`; the caller guarantees equal
lengths).  `i` is the current position. -/
def correlateLoop {α : Type} : Nat → List (α × Bool × String) → corOut α
  | _, [] => ⟨false, [], [], []⟩
  | i, (d, ok, err) :: rest =>
    let o := correlateLoop (i + 1) rest
    if ok then ⟨o.flag, ok :: o.results, o.errors, o.failed⟩
    else ⟨true, ok :: o.results, (i, err) :: o.errors, d :: o.failed⟩

/-- Embedding of the `addResults` struct built by `newBatchResults`. -/
structure addResultsS where
  hasErrors : Bool
  results : List Bool
  errors : List (Nat × String)
  elements : List Document
  failed : List Document

/-- Embedding of the `deleteResults` struct built by `newBulkResults`. -/
structure deleteResultsS where
  hasErrors : Bool
  results : List Bool
  errors : List (Nat × String)
  elements : List String
  failed : List String

/-- Embedding of `newBatchResults`.  The Go function panics when
`len(documents) != len(r)`; the panic is modelled by `none`. -/
def newBatchResults (documents : List Document) (r : List addResult) :
    Option addResultsS :=
  if documents.length != r.length then none
  else
    let o := correlateLoop 0 (documents.zip (r.map (fun v => (v.Added, v.Error))))
    some ⟨o.flag, o.results, o.errors, documents, o.failed⟩

/-- Embedding of `newBulkResults`.  The Go function panics when
`len(documentIds) != len(r)`; the panic is modelled by `none`. -/
def newBulkResults (documentIds : List String) (r : List deleteResult) :
    Option deleteResultsS :=
  if documentIds.length != r.length then none
  else
    let o := correlateLoop 0 (documentIds.zip (r.map (fun v => (v.Deleted, v.Error))))
    some ⟨o.flag, o.results, o.errors, documentIds, o.failed⟩

/-- `HasErrors` accessor of the batch add result. -/
def addResultsS.HasErrors (x : addResultsS) : Bool := x.hasErrors

/-- `GetResult` accessor; Go indexes the `results` slice (panicking out of
range), modelled by `Option`. -/
def addResultsS.GetResult (x : addResultsS) (i : Nat) : Option Bool := x.results[i]?

/-- `GetDocument` accessor; Go indexes the `elements` slice. -/
def addResultsS.GetDocument (x : addResultsS) (i : Nat) : Option Document :=
  x.elements[i]?

/-- `GetErrorMessage` accessor: a Go map read with `ok`; the zero value
`("", false)` is returned when the position has no recorded error. -/
def addResultsS.GetErrorMessage (x : addResultsS) (i : Nat) : String × Bool :=
  match assocLookup i x.errors with
  | some s => (s, true)
  | none => ("", false)

/-- `GetFailedDocuments` accessor. -/
def addResultsS.GetFailedDocuments (x : addResultsS) : List Document := x.failed

/-- `HasErrors` accessor of the bulk delete result. -/
def deleteResultsS.HasErrors (x : deleteResultsS) : Bool := x.hasErrors

/-- `GetResult` accessor of the bulk delete result. -/
def deleteResultsS.GetResult (x : deleteResultsS) (i : Nat) : Option Bool :=
  x.results[i]?

/-- `GetDocid` accessor of the bulk delete result. -/
def deleteResultsS.GetDocid (x : deleteResultsS) (i : Nat) : Option String :=
  x.elements[i]?

/-- `GetErrorMessage` accessor of the bulk delete result. -/
def deleteResultsS.GetErrorMessage (x : deleteResultsS) (i : Nat) : String × Bool :=
  match assocLookup i x.errors with
  | some s => (s, true)
  | none => ("", false)

/-- `GetFailedDocids` accessor of the bulk delete result. -/
def deleteResultsS.GetFailedDocids (x : deleteResultsS) : List String := x.failed

/-- Embedding of `isOk`: `status/100 == 2`. -/
def isOk (status : Nat) : Bool := status / 100 == 2

/-- Status interpretation of the convenience helper `doRequest` (transport
and JSON parsing are external; only the status-code policy is modelled):
404 and 204 are checked before the generic `>= 400` branch, so a 204 is
turned into an error even though it is a 2xx status. -/
def doRequestInterp (status : Nat) : Except String Unit :=
  if status == 404 then .error "Index does not exist"
  else if status == 204 then .error ("Index Already Exists " ++ toString status)
  else if status ≥ 400 then .error ("HTTP response " ++ toString status)
  else .ok ()

/-- `refreshMetadata` is `doRequest("GET", url, nil)`: its error outcome is
exactly `doRequestInterp`. -/
def refreshMetadataInterp (status : Nat) : Except String Unit := doRequestInterp status

/-- The simple `Search(string)` returns `doRequest(...)` directly. -/
def searchSimpleInterp (status : Nat) : Except String Unit := doRequestInterp status

/-- `ListIndexes` propagates `doRequest`'s error unchanged. -/
def listIndexesInterp (status : Nat) : Except String Unit := doRequestInterp status

/-- Embedding of `Exists`: `_, err := client.refreshMetadata(); return err == nil`. -/
def IndexClientExists (status : Nat) : Bool :=
  match refreshMetadataInterp status with
  | .ok _ => true
  | .error _ => false

/-- Status interpretation of `CreateIndexWithOptions` (and hence
`CreateIndex`): the Go `switch` on the status code.  `statusText` models
`resp.Status`, the HTTP status line ("reason text").  On 201 the code also
refreshes the metadata before returning success. -/
def CreateIndexWithOptions (status : Nat) (statusText : String) : Except String Unit :=
  if status == 201 then .ok ()
  else if status == 204 then .error "Index already exists"
  else if status == 409 then .error "Maximum indexes limit reached for this account"
  else .error ("Unexpected error, HTTP status " ++ toString status ++ ": " ++ statusText)

/-- Status interpretation of `AddDocument`: 2xx is success; a 400 with a
non-empty body returns the body text; everything else (404 included) is the
fixed message `"Unexpected error adding document"`, without the status. -/
def addDocumentInterp (status : Nat) (body : String) : Except String Unit :=
  if isOk status then .ok ()
  else if status == 400 && body != "" then .error body
  else .error "Unexpected error adding document"

/-- Status interpretation of `UpdateVariables`: same shape as
`addDocumentInterp` with its own fixed generic message. -/
def updateVariablesInterp (status : Nat) (body : String) : Except String Unit :=
  if isOk status then .ok ()
  else if status == 400 && body != "" then .error body
  else .error "Unexpected error updating variables"

/-- Status interpretation of `AddFunction`: 2xx is success; 400 with a
non-empty body returns the body; otherwise (404 included) a generic error
carrying status and status text. -/
def addFunctionInterp (status : Nat) (body statusText : String) : Except String Unit :=
  if isOk status then .ok ()
  else if status == 400 && body != "" then .error body
  else .error ("Unexpected " ++ toString status ++ " error: " ++ statusText)

/-- Status interpretation of `DeleteFunction`: 2xx is success; on 400 the
code returns `errors.New(resp.Status)` (the status text, not the body);
otherwise a generic error carrying status and status text. -/
def deleteFunctionInterp (status : Nat) (statusText : String) : Except String Unit :=
  if isOk status then .ok ()
  else if status == 400 then .error statusText
  else .error ("Unexpected " ++ toString status ++ " error: " ++ statusText)

/-- Status interpretation of `DeleteDocument`: 2xx is success; 404 is the
index-does-not-exist error; otherwise a generic error carrying status and
status text (no 400-body case). -/
def deleteDocumentInterp (status : Nat) (statusText : String) : Except String Unit :=
  if isOk status then .ok ()
  else if status == 404 then .error "Index does not exist"
  else .error ("Unexpected " ++ toString status ++ " error: " ++ statusText)

/-- Embedding of the response handling of `AddDocuments`.  `parsed` is the
outcome of `json.Unmarshal` on the response body (external collaborator),
`raw` the raw body text read in the 400 branch.  On a 2xx response the
code checks `len(documents) != len(r)` and fails before building the batch
result, so the `none` (panic) branch of `newBatchResults` is unreachable
here (kept as an error for totality). -/
def AddDocuments (documents : List Document) (status : Nat)
    (parsed : Except String (List addResult)) (raw : String) :
    Except String addResultsS :=
  if isOk status then
    match parsed with
    | .error e => .error e
    | .ok r =>
      if documents.length != r.length then
        .error ("Something is wrong, we have " ++ toString documents.length ++
          " docs and " ++ toString r.length ++ " results\n")
      else
        match newBatchResults documents r with
        | some bd => .ok bd
        | none => .error "unreachable: lengths checked above"
  else if status == 400 && raw != "" then .error raw
  else .error "Unexpected error adding documents batch"

/-- Embedding of the response handling of `DeleteDocuments`.  Only status
200 (not 2xx generally) takes the success path; there the parsed outcome
list is handed to `newBulkResults` WITHOUT a length check, so a length
mismatch panics inside `newBulkResults` — the outer `Option` is `none`
exactly in that case. -/
def DeleteDocuments (documentIds : List String) (status : Nat)
    (parsed : Except String (List deleteResult)) (statusText : String) :
    Option (Except String deleteResultsS) :=
  if status == 200 then
    match parsed with
    | .error e => some (.error e)
    | .ok r =>
      match newBulkResults documentIds r with
      | some bd => some (.ok bd)
      | none => none
  else if status == 404 then some (.error "Index does not exist")
  else some (.error ("Unexpected " ++ toString status ++ " error: " ++ statusText))

theorem assocLookup_goInsert_self {κ ν : Type} [BEq κ] [LawfulBEq κ]
    (l : List (κ × ν)) (k : κ) (v : ν) :
    assocLookup k (goInsert l k v) = some v := by
  induction l with
  | nil => simp [goInsert, assocLookup]
  | cons hd tl ih =>
    obtain ⟨k', v'⟩ := hd
    by_cases h : k' = k
    · subst h; simp [goInsert, assocLookup]
    · simp [goInsert, assocLookup, h, ih]

theorem assocLookup_goInsert_ne {κ ν : Type} [BEq κ] [LawfulBEq κ]
    (l : List (κ × ν)) (k k' : κ) (v : ν) (h : k ≠ k') :
    assocLookup k' (goInsert l k v) = assocLookup k' l := by
  induction l with
  | nil => simp [goInsert, assocLookup, h]
  | cons hd tl ih =>
    obtain ⟨k'', v''⟩ := hd
    by_cases h2 : k'' = k
    · subst h2; simp [goInsert, assocLookup, h]
    · simp [goInsert, assocLookup, h2, ih]

theorem assocLookup_foldl_goInsert_ne {κ ν : Type} [BEq κ] [LawfulBEq κ]
    (k : κ) (l : List (κ × ν)) (p0 : List (κ × ν)) (h : ∀ kv ∈ l, kv.1 ≠ k) :
    assocLookup k (l.foldl (fun p kv => goInsert p kv.1 kv.2) p0)
      = assocLookup k p0 := by
  induction l generalizing p0 with
  | nil => rfl
  | cons hd tl ih =>
    rw [List.foldl_cons, ih _ (fun kv hkv => h kv (List.mem_cons_of_mem _ hkv))]
    exact assocLookup_goInsert_ne p0 hd.1 k hd.2 (h hd (List.mem_cons_self _ _))

theorem assocLookup_mem {κ ν : Type} [BEq κ] [LawfulBEq κ]
    (k : κ) (v : ν) (l : List (κ × ν)) (h : assocLookup k l = some v) :
    (k, v) ∈ l := by
  induction l with
  | nil => simp [assocLookup] at h
  | cons hd tl ih =>
    obtain ⟨k', v'⟩ := hd
    by_cases h2 : k' = k
    · subst h2
      simp [assocLookup] at h
      simp [h]
    · simp [assocLookup, h2] at h
      exact List.mem_cons_of_mem _ (ih h)

theorem correlateLoop_results {α : Type} (l : List (α × Bool × String)) :
    ∀ i, (correlateLoop i l).results = l.map (fun t => t.2.1) := by
  induction l with
  | nil => intro i; rfl
  | cons hd tl ih =>
    intro i
    obtain ⟨d, ok, err⟩ := hd
    cases ok <;> simp [correlateLoop, ih]

theorem correlateLoop_flag {α : Type} (l : List (α × Bool × String)) :
    ∀ i, (correlateLoop i l).flag = l.any (fun t => !t.2.1) := by
  induction l with
  | nil => intro i; rfl
  | cons hd tl ih =>
    intro i
    obtain ⟨d, ok, err⟩ := hd
    cases ok <;> simp [correlateLoop, ih]

theorem correlateLoop_failed {α : Type} (l : List (α × Bool × String)) :
    ∀ i, (correlateLoop i l).failed
      = l.filterMap (fun t => if t.2.1 then none else some t.1) := by
  induction l with
  | nil => intro i; rfl
  | cons hd tl ih =>
    intro i
    obtain ⟨d, ok, err⟩ := hd
    cases ok <;> simp [correlateLoop, ih]

theorem correlateLoop_errors_lt {α : Type} (l : List (α × Bool × String)) :
    ∀ i k, k < i → assocLookup k (correlateLoop i l).errors = none := by
  induction l with
  | nil => intro i k _; rfl
  | cons hd tl ih =>
    intro i k hk
    obtain ⟨d, ok, err⟩ := hd
    have hne : (i == k) = false := by simp; omega
    cases ok <;>
      simp [correlateLoop, assocLookup, hne, ih (i + 1) k (Nat.lt_succ_of_lt hk)]

theorem correlateLoop_errors {α : Type} (l : List (α × Bool × String)) :
    ∀ i j, assocLookup (i + j) (correlateLoop i l).errors
      = (l[j]?).bind (fun t => if t.2.1 then none else some t.2.2) := by
  induction l with
  | nil => intro i j; simp [correlateLoop, assocLookup]
  | cons hd tl ih =>
    intro i j
    obtain ⟨d, ok, err⟩ := hd
    cases j with
    | zero =>
      cases ok
      · simp [correlateLoop, assocLookup]
      · simpa [correlateLoop] using
          correlateLoop_errors_lt tl (i + 1) i (by omega)
    | succ j' =>
      rw [show i + (j' + 1) = (i + 1) + j' from by omega]
      have hne : (i == (i + 1) + j') = false := by simp; omega
      cases ok <;> simp [correlateLoop, assocLookup, hne, ih (i + 1) j']

theorem any_map_general {α β : Type} (l : List α) (f : α → β) (p : β → Bool) :
    (l.map f).any p = l.any (fun x => p (f x)) := by
  induction l with
  | nil => rfl
  | cons hd tl ih => simp [ih]

theorem corFlag_iff {α β : Type} (elems : List α) (outs : List β)
    (g : β → Bool × String) (h : elems.length = outs.length) :
    ((correlateLoop 0 (elems.zip (outs.map g))).flag = true
      ↔ ∃ v ∈ outs, (g v).1 = false) := by
  rw [correlateLoop_flag _ 0, List.zip_map_right, any_map_general, List.any_eq_true]
  constructor
  · rintro ⟨p, hp, hb⟩
    refine ⟨p.2, (List.of_mem_zip hp).2, ?_⟩
    simpa [Function.comp, Prod.map] using hb
  · rintro ⟨v, hv, hb⟩
    obtain ⟨j, hj⟩ := List.getElem?_of_mem hv
    have hjlen : j < outs.length := by
      rcases List.getElem?_eq_some.mp hj with ⟨hlt, _⟩
      exact hlt
    obtain ⟨d, hd⟩ : ∃ d, elems[j]? = some d := by
      rw [List.getElem?_eq_getElem (show j < elems.length by omega)]
      exact ⟨_, rfl⟩
    have hz : (elems.zip outs)[j]? = some (d, v) := by
      simp [List.getElem?_zip_eq_some, hd, hj]
    exact ⟨(d, v), List.getElem?_mem hz, by simp [Function.comp, Prod.map, hb]⟩

theorem corFailed {α β : Type} (elems : List α) (outs : List β)
    (g : β → Bool × String) :
    (correlateLoop 0 (elems.zip (outs.map g))).failed
      = (elems.zip outs).filterMap (fun p => if (g p.2).1 then none else some p.1) := by
  rw [correlateLoop_failed _ 0, List.zip_map_right, List.filterMap_map]
  rfl

theorem corResults_at {α β : Type} (elems : List α) (outs : List β)
    (g : β → Bool × String) (i : Nat) (d : α) (v : β)
    (h1 : elems[i]? = some d) (h2 : outs[i]? = some v) :
    (correlateLoop 0 (elems.zip (outs.map g))).results[i]? = some (g v).1 := by
  rw [correlateLoop_results _ 0]
  have hz : (elems.zip (outs.map g))[i]? = some (d, g v) := by
    simp [List.getElem?_zip_eq_some, h1, List.getElem?_map, h2]
  simp [List.getElem?_map, hz]

theorem corErrors_at {α β : Type} (elems : List α) (outs : List β)
    (g : β → Bool × String) (i : Nat) (d : α) (v : β)
    (h1 : elems[i]? = some d) (h2 : outs[i]? = some v) :
    assocLookup i (correlateLoop 0 (elems.zip (outs.map g))).errors
      = if (g v).1 then none else some (g v).2 := by
  have he := correlateLoop_errors (elems.zip (outs.map g)) 0 i
  rw [Nat.zero_add] at he
  rw [he]
  have hz : (elems.zip (outs.map g))[i]? = some (d, g v) := by
    simp [List.getElem?_zip_eq_some, h1, List.getElem?_map, h2]
  simp [hz]

/-- C1: for parallel input/outcome lists of equal length N, the batch
result object built by the correlator satisfies: `HasErrors()` is true iff
at least one outcome record is unsuccessful; `GetFailedDocuments()` (resp.
`GetFailedDocids()`) is exactly the order-preserved sublist of inputs whose
outcome was unsuccessful; and at every position `i < N`, `GetResult`
returns outcome i's success flag, `GetDocument`/`GetDocid` returns input i,
and `GetErrorMessage` returns `(error, true)` on failure and `ok = false`
on success. -/
theorem C1_batch_result_correlation
    (documents : List Document) (r : List addResult)
    (ids : List String) (dr : List deleteResult)
    (hA : documents.length = r.length) (hD : ids.length = dr.length) :
    ∃ ares dres,
      newBatchResults documents r = some ares ∧
      newBulkResults ids dr = some dres ∧
      ((ares.HasErrors = true) ↔ ∃ v ∈ r, v.Added = false) ∧
      ares.GetFailedDocuments
        = (documents.zip r).filterMap (fun p => if p.2.Added then none else some p.1) ∧
      (∀ i d v, documents[i]? = some d → r[i]? = some v →
        ares.GetResult i = some v.Added ∧
        ares.GetDocument i = some d ∧
        (v.Added = false → ares.GetErrorMessage i = (v.Error, true)) ∧
        (v.Added = true → ares.GetErrorMessage i = ("", false))) ∧
      ((dres.HasErrors = true) ↔ ∃ v ∈ dr, v.Deleted = false) ∧
      dres.GetFailedDocids
        = (ids.zip dr).filterMap (fun p => if p.2.Deleted then none else some p.1) ∧
      (∀ i d v, ids[i]? = some d → dr[i]? = some v →
        dres.GetResult i = some v.Deleted ∧
        dres.GetDocid i = some d ∧
        (v.Deleted = false → dres.GetErrorMessage i = (v.Error, true)) ∧
        (v.Deleted = true → dres.GetErrorMessage i = ("", false))) := by
  have hbA : (documents.length != r.length) = false := by simp [hA]
  have hbD : (ids.length != dr.length) = false := by simp [hD]
  have eA : newBatchResults documents r
      = some ⟨(correlateLoop 0 (documents.zip (r.map fun v => (v.Added, v.Error)))).flag,
              (correlateLoop 0 (documents.zip (r.map fun v => (v.Added, v.Error)))).results,
              (correlateLoop 0 (documents.zip (r.map fun v => (v.Added, v.Error)))).errors,
              documents,
              (correlateLoop 0 (documents.zip (r.map fun v => (v.Added, v.Error)))).failed⟩ := by
    simp [newBatchResults, hbA]
  have eD : newBulkResults ids dr
      = some ⟨(correlateLoop 0 (ids.zip (dr.map fun v => (v.Deleted, v.Error)))).flag,
              (correlateLoop 0 (ids.zip (dr.map fun v => (v.Deleted, v.Error)))).results,
              (correlateLoop 0 (ids.zip (dr.map fun v => (v.Deleted, v.Error)))).errors,
              ids,
              (correlateLoop 0 (ids.zip (dr.map fun v => (v.Deleted, v.Error)))).failed⟩ := by
    simp [newBulkResults, hbD]
  refine ⟨_, _, eA, eD, ?_, ?_, ?_, ?_, ?_, ?_⟩
  · exact corFlag_iff documents r (fun v => (v.Added, v.Error)) hA
  · exact corFailed documents r (fun v => (v.Added, v.Error))
  · intro i d v h1 h2
    have he := corErrors_at documents r (fun v => (v.Added, v.Error)) i d v h1 h2
    refine ⟨corResults_at documents r (fun v => (v.Added, v.Error)) i d v h1 h2, h1, ?_, ?_⟩
    · intro hadd
      simp [addResultsS.GetErrorMessage, he, hadd]
    · intro hadd
      simp [addResultsS.GetErrorMessage, he, hadd]
  · exact corFlag_iff ids dr (fun v => (v.Deleted, v.Error)) hD
  · exact corFailed ids dr (fun v => (v.Deleted, v.Error))
  · intro i d v h1 h2
    have he := corErrors_at ids dr (fun v => (v.Deleted, v.Error)) i d v h1 h2
    refine ⟨corResults_at ids dr (fun v => (v.Deleted, v.Error)) i d v h1 h2, h1, ?_, ?_⟩
    · intro hdel
      simp [deleteResultsS.GetErrorMessage, he, hdel]
    · intro hdel
      simp [deleteResultsS.GetErrorMessage, he, hdel]

/-- Witness for C1 at a concrete two-document batch add (one failure) and a
one-id batch delete (failure). -/
theorem C1_batch_result_correlation_witness :
    ∃ ares dres,
      newBatchResults [⟨"d1", [], [], []⟩, ⟨"d2", [], [], []⟩]
          [⟨true, ""⟩, ⟨false, "boom"⟩] = some ares ∧
      newBulkResults ["a"] [⟨false, "x"⟩] = some dres ∧
      ((ares.HasErrors = true) ↔ ∃ v ∈ [(⟨true, ""⟩ : addResult), ⟨false, "boom"⟩], v.Added = false) ∧
      ares.GetFailedDocuments
        = (([⟨"d1", [], [], []⟩, ⟨"d2", [], [], []⟩] : List Document).zip
            [(⟨true, ""⟩ : addResult), ⟨false, "boom"⟩]).filterMap
            (fun p => if p.2.Added then none else some p.1) ∧
      (∀ i d v, ([⟨"d1", [], [], []⟩, ⟨"d2", [], [], []⟩] : List Document)[i]? = some d →
          ([(⟨true, ""⟩ : addResult), ⟨false, "boom"⟩])[i]? = some v →
        ares.GetResult i = some v.Added ∧
        ares.GetDocument i = some d ∧
        (v.Added = false → ares.GetErrorMessage i = (v.Error, true)) ∧
        (v.Added = true → ares.GetErrorMessage i = ("", false))) ∧
      ((dres.HasErrors = true) ↔ ∃ v ∈ [(⟨false, "x"⟩ : deleteResult)], v.Deleted = false) ∧
      dres.GetFailedDocids
        = ((["a"] : List String).zip [(⟨false, "x"⟩ : deleteResult)]).filterMap
            (fun p => if p.2.Deleted then none else some p.1) ∧
      (∀ i d v, (["a"] : List String)[i]? = some d →
          ([(⟨false, "x"⟩ : deleteResult)])[i]? = some v →
        dres.GetResult i = some v.Deleted ∧
        dres.GetDocid i = some d ∧
        (v.Deleted = false → dres.GetErrorMessage i = (v.Error, true)) ∧
        (v.Deleted = true → dres.GetErrorMessage i = ("", false))) :=
  C1_batch_result_correlation
    [⟨"d1", [], [], []⟩, ⟨"d2", [], [], []⟩] [⟨true, ""⟩, ⟨false, "boom"⟩]
    ["a"] [⟨false, "x"⟩] (by decide) (by decide)

/-- C2: when a well-formed batch response carries a number of outcome
records different from the number of submitted items, the batch add
returns the consistency error (and never a result object), and the batch
delete panics inside `newBulkResults` (modelled by `none`): the operation
fails loudly and no result object is produced, so inputs are never
truncated or padded to the response length. -/
theorem C2_batch_length_mismatch
    (documents : List Document) (r : List addResult)
    (ids : List String) (dr : List deleteResult)
    (status : Nat) (raw text : String)
    (hA : documents.length ≠ r.length) (hD : ids.length ≠ dr.length)
    (hs : isOk status = true) :
    AddDocuments documents status (.ok r) raw
      = .error ("Something is wrong, we have " ++ toString documents.length ++
          " docs and " ++ toString r.length ++ " results\n") ∧
    (∀ res, AddDocuments documents status (.ok r) raw ≠ .ok res) ∧
    newBatchResults documents r = none ∧
    DeleteDocuments ids 200 (.ok dr) text = none ∧
    newBulkResults ids dr = none := by
  have hb : (documents.length != r.length) = true := by simp [hA]
  have hb2 : (ids.length != dr.length) = true := by simp [hD]
  refine ⟨?_, ?_, ?_, ?_, ?_⟩ <;>
    simp [AddDocuments, DeleteDocuments, newBatchResults, newBulkResults, hs, hb, hb2]

/-- Witness for C2: one submitted item against an empty outcome list. -/
theorem C2_batch_length_mismatch_witness :
    AddDocuments [⟨"d1", [], [], []⟩] 200 (.ok []) ""
      = .error ("Something is wrong, we have " ++
          toString ([(⟨"d1", [], [], []⟩ : Document)]).length ++
          " docs and " ++ toString ([] : List addResult).length ++ " results\n") ∧
    (∀ res, AddDocuments [⟨"d1", [], [], []⟩] 200 (.ok []) "" ≠ .ok res) ∧
    newBatchResults [⟨"d1", [], [], []⟩] [] = none ∧
    DeleteDocuments ["a"] 200 (.ok []) "" = none ∧
    newBulkResults ["a"] [] = none :=
  C2_batch_length_mismatch [⟨"d1", [], [], []⟩] [] ["a"] [] 200 "" ""
    (by decide) (by decide) (by decide)

/-- C10: the convenience helper `doRequest` (used by metadata refresh and
hence `Exists()`, by the simple `Search(string)` and by `ListIndexes()`)
turns an HTTP 204 response into the "Index Already Exists" error even
though 204 is a 2xx status, so it is not a success and `Exists()` returns
false on a 204 metadata response. -/
theorem C10_doRequest_204_is_error :
    doRequestInterp 204 = .error "Index Already Exists 204" ∧
    (∀ u, doRequestInterp 204 ≠ .ok u) ∧
    isOk 204 = true ∧
    IndexClientExists 204 = false ∧
    refreshMetadataInterp 204 = doRequestInterp 204 ∧
    searchSimpleInterp 204 = doRequestInterp 204 ∧
    listIndexesInterp 204 = doRequestInterp 204 := by
  refine ⟨rfl, ?_, by decide, by decide, rfl, rfl, rfl⟩
  intro u h
  exact Except.noConfusion h

theorem data_ne_nil_of_head {s : String} {c : Char} (h : s.data.head? = some c) :
    s.data ≠ [] := by
  intro he
  rw [he] at h
  exact Option.noConfusion h

theorem head?_append_left (s t : String) (h : s.data ≠ []) :
    (s ++ t).data.head? = s.data.head? := by
  rw [String.data_append]
  cases hd : s.data with
  | nil => exact absurd hd h
  | cons a l => rfl

theorem append_data_ne_nil (s t : String) (h : s.data ≠ []) : (s ++ t).data ≠ [] := by
  rw [String.data_append]
  intro he
  exact h (List.append_eq_nil.mp he).1

theorem string_ne_of_head {s t : String} (h : s.data.head? ≠ t.data.head?) : s ≠ t := by
  intro he
  rw [he] at h
  exact h rfl

theorem append_ne_of_head (p t s : String) (c : Char)
    (hp : p.data.head? = some c) (hs : s.data.head? ≠ some c) : p ++ t ≠ s := by
  apply string_ne_of_head
  rw [head?_append_left p t (data_ne_nil_of_head hp), hp]
  exact fun he => hs he.symm

/-- C7: `CreateIndexWithOptions` (and `CreateIndex`) maps 201 to success,
204 to the distinct already-exists error, 409 to the distinct
limit-exceeded error, and every other status to a generic failure carrying
the status code and the reason text; the two distinct errors never
coincide with a generic failure message. -/
theorem C7_create_index_status_mapping (status : Nat) (text : String) :
    CreateIndexWithOptions 201 text = .ok () ∧
    CreateIndexWithOptions 204 text = .error "Index already exists" ∧
    CreateIndexWithOptions 409 text = .error "Maximum indexes limit reached for this account" ∧
    (status ≠ 201 → status ≠ 204 → status ≠ 409 →
      CreateIndexWithOptions status text
        = .error ("Unexpected error, HTTP status " ++ toString status ++ ": " ++ text)) ∧
    "Index already exists" ≠ "Unexpected error, HTTP status " ++ toString status ++ ": " ++ text ∧
    "Maximum indexes limit reached for this account"
      ≠ "Unexpected error, HTTP status " ++ toString status ++ ": " ++ text := by
  have h0 : ("Unexpected error, HTTP status " : String).data ≠ [] := by decide
  have h1 : ("Unexpected error, HTTP status " ++ toString status).data ≠ [] :=
    append_data_ne_nil _ _ h0
  have h2 : ("Unexpected error, HTTP status " ++ toString status ++ ": ").data ≠ [] :=
    append_data_ne_nil _ _ h1
  refine ⟨rfl, rfl, rfl, ?_, ?_, ?_⟩
  · intro hne1 hne2 hne3
    simp [CreateIndexWithOptions, hne1, hne2, hne3]
  · apply string_ne_of_head
    rw [head?_append_left _ text h2, head?_append_left _ _ h1, head?_append_left _ _ h0]
    decide
  · apply string_ne_of_head
    rw [head?_append_left _ text h2, head?_append_left _ _ h1, head?_append_left _ _ h0]
    decide

/-- Witness for C7 at status 500 (generic), 201 (success), 204 (already
exists). -/
theorem C7_create_index_status_mapping_witness :
    CreateIndexWithOptions 500 "500 Internal Server Error"
      = .error ("Unexpected error, HTTP status " ++ toString (500 : Nat) ++ ": "
          ++ "500 Internal Server Error") ∧
    CreateIndexWithOptions 201 "" = .ok () ∧
    CreateIndexWithOptions 204 "" = .error "Index already exists" :=
  ⟨(C7_create_index_status_mapping 500 "500 Internal Server Error").2.2.2.1
      (by decide) (by decide) (by decide),
   (C7_create_index_status_mapping 201 "").1,
   (C7_create_index_status_mapping 204 "").2.1⟩

/-- C9 counterexample: `QueryVariable 0 1` followed by `QueryVariables
[(1, 2)]` REPLACES the whole variable map, so the value previously set at
index 0 is gone — the claim says it should remain. -/
theorem C9_query_variables_replace_cex :
    assocLookup (0 : Int)
      (QueryVariables (QueryVariable (QueryForString "x") 0 1) [(1, 2)]).queryVariables
      = none ∧
    (none : Option Rat) ≠ some 1 := by
  exact ⟨by decide, by decide⟩

/-- C9 amended: `QueryVariable` merges by upsert on the variable index
(a later call overwrites the value at that index and preserves all other
indices), but `QueryVariables` replaces the entire query-variable map with
its argument, discarding values previously set at other indices. -/
theorem C9_query_variable_merge (s : queryState) (k k' : Int) (v : Rat)
    (m : List (Int × Rat)) (hne : k' ≠ k) :
    assocLookup k (QueryVariable s k v).queryVariables = some v ∧
    assocLookup k' (QueryVariable s k v).queryVariables
      = assocLookup k' s.queryVariables ∧
    (QueryVariables s m).queryVariables = m :=
  ⟨assocLookup_goInsert_self _ _ _,
   assocLookup_goInsert_ne _ _ _ _ (Ne.symm hne), rfl⟩

/-- Witness for C9 amended at a concrete state. -/
theorem C9_query_variable_merge_witness :
    assocLookup (0 : Int) (QueryVariable (QueryForString "w") 0 5).queryVariables = some 5 ∧
    assocLookup (1 : Int) (QueryVariable (QueryForString "w") 0 5).queryVariables
      = assocLookup (1 : Int) (QueryForString "w").queryVariables ∧
    (QueryVariables (QueryForString "w") [(2, 3)]).queryVariables = [(2, 3)] :=
  C9_query_variable_merge (QueryForString "w") 0 1 5 [(2, 3)] (by decide)

/-- C3: the comma-join of multiple ranges for the same variable index is
dead code in `formatRangeParam` (the Go `if totalValue, ok := params[k]`
shadows the outer `totalValue`), so two filters on the same index yield a
single parameter holding only the LAST range, not the comma-joined pair.
`fmDemo` renders the integral values 1,2,3,4 exactly as Go's
`strconv.FormatFloat _ 'g' (-1) 64` does. -/
theorem C3_range_filter_shadowing :
    formatRangeParam fmDemo [⟨0, 1, 2⟩, ⟨0, 3, 4⟩] = [("0", "3:4")] ∧
    assocLookup "filter_docvar0"
      (paramsMap fmDemo mcDemo
        (DocumentVariableFilter (DocumentVariableFilter (QueryForString "x") 0 1 2) 0 3 4))
      = some "3:4" ∧
    assocLookup "filter_function0"
      (paramsMap fmDemo mcDemo
        (FunctionFilter (FunctionFilter (QueryForString "x") 0 1 2) 0 3 4))
      = some "3:4" ∧
    ("3:4" : String) ≠ "1:2,3:4" := by
  refine ⟨by decide, by decide, by decide, by decide⟩

/-- C6: the value of a query-time variable parameter `var<N>` is routed
through `fmt.Sprintf "%f"` (the `params` map assignment), NOT through
`strconv.FormatFloat _ 'g' (-1) 64` (which only feeds the dead string
`s`).  Concretely, with the Go outputs at 1.5 — `Sprintf "%f" 1.5 =
"1.500000"`, `FormatFloat 1.5 'g' (-1) 64 = "1.5"` — the serialized value
is the fixed-point `"1.500000"`, not the shortest form `"1.5"`. -/
theorem C6_query_variable_fixed_point_formatting :
    (∀ (fm : FloatModel) (v : Rat),
      assocLookup "var0"
        (paramsMap fm mcDemo (QueryVariable (QueryForString "x") 0 v))
        = some (fm.sprintfF v)) ∧
    assocLookup "var0"
      (paramsMap ⟨fun _ => "1.500000", fun _ => "1.5"⟩ mcDemo
        (QueryVariable (QueryForString "x") 0 (3 / 2)))
      = some "1.500000" ∧
    (some "1.500000" : Option String) ≠ some "1.5" := by
  have hgen : ∀ (fm : FloatModel) (v : Rat),
      assocLookup "var0"
        (paramsMap fm mcDemo (QueryVariable (QueryForString "x") 0 v))
        = some (fm.sprintfF v) := by
    intro fm v
    simp [paramsMap, paramsSeq, paramsAfterLen, QueryVariable, QueryForString, goInsert,
      assocLookup, mcDemo, show "var" ++ toString (0 : Int) = "var0" from by decide]
  exact ⟨hgen, hgen ⟨fun _ => "1.500000", fun _ => "1.5"⟩ (3 / 2), by decide⟩

theorem mem_ite_nil_elim {α : Type} {x : α} {c : Prop} [Decidable c] {l : List α}
    (h : x ∈ if c then l else []) : x ∈ l := by
  split at h
  · exact h
  · simp at h

theorem paramsAfterLen_key (fm : FloatModel)
    (mc : List (String × List String) → String) (q : queryState)
    (kv : String × String) (h : kv ∈ paramsAfterLen fm mc q) :
    kv.1 = "function" ∨ kv.1 = "snippet" ∨ kv.1 = "fetch" ∨
    (∃ x, kv.1 = "var" ++ x) ∨ kv.1 = "fetch_variables" ∨
    kv.1 = "fetch_categories" ∨ kv.1 = "category_filters" ∨
    (∃ x, kv.1 = "filter_docvar" ++ x) ∨ (∃ x, kv.1 = "filter_function" ++ x) := by
  simp only [paramsAfterLen, List.mem_append] at h
  rcases h with h | h | h | h | h | h | h | h | h
  · have h2 := mem_ite_nil_elim h
    simp at h2
    exact Or.inl (by rw [h2])
  · have h2 := mem_ite_nil_elim h
    simp at h2
    exact Or.inr (Or.inl (by rw [h2]))
  · have h2 := mem_ite_nil_elim h
    simp at h2
    exact Or.inr (Or.inr (Or.inl (by rw [h2])))
  · have h2 := mem_ite_nil_elim h
    obtain ⟨x, _, hkv⟩ := List.mem_map.mp h2
    exact Or.inr (Or.inr (Or.inr (Or.inl ⟨toString x.1, by rw [← hkv]⟩)))
  · have h2 := mem_ite_nil_elim h
    simp at h2
    exact Or.inr (Or.inr (Or.inr (Or.inr (Or.inl (by rw [h2])))))
  · have h2 := mem_ite_nil_elim h
    simp at h2
    exact Or.inr (Or.inr (Or.inr (Or.inr (Or.inr (Or.inl (by rw [h2]))))))
  · have h2 := mem_ite_nil_elim h
    simp at h2
    exact Or.inr (Or.inr (Or.inr (Or.inr (Or.inr (Or.inr (Or.inl (by rw [h2])))))))
  · have h2 := mem_ite_nil_elim h
    obtain ⟨x, _, hkv⟩ := List.mem_map.mp h2
    exact Or.inr (Or.inr (Or.inr (Or.inr (Or.inr (Or.inr (Or.inr (Or.inl ⟨x.1, by rw [← hkv]⟩)))))))
  · have h2 := mem_ite_nil_elim h
    obtain ⟨x, _, hkv⟩ := List.mem_map.mp h2
    exact Or.inr (Or.inr (Or.inr (Or.inr (Or.inr (Or.inr (Or.inr (Or.inr ⟨x.1, by rw [← hkv]⟩)))))))

theorem paramsAfterLen_key_ne (fm : FloatModel)
    (mc : List (String × List String) → String) (q : queryState)
    (kv : String × String) (h : kv ∈ paramsAfterLen fm mc q) :
    kv.1 ≠ "q" ∧ kv.1 ≠ "len" := by
  rcases paramsAfterLen_key fm mc q kv h with
    h1 | h1 | h1 | ⟨x, h1⟩ | h1 | h1 | h1 | ⟨x, h1⟩ | ⟨x, h1⟩ <;> rw [h1]
  · exact ⟨by decide, by decide⟩
  · exact ⟨by decide, by decide⟩
  · exact ⟨by decide, by decide⟩
  · exact ⟨append_ne_of_head _ _ _ 'v' rfl (by decide),
      append_ne_of_head _ _ _ 'v' rfl (by decide)⟩
  · exact ⟨by decide, by decide⟩
  · exact ⟨by decide, by decide⟩
  · exact ⟨by decide, by decide⟩
  · exact ⟨append_ne_of_head _ _ _ 'f' rfl (by decide),
      append_ne_of_head _ _ _ 'f' rfl (by decide)⟩
  · exact ⟨append_ne_of_head _ _ _ 'f' rfl (by decide),
      append_ne_of_head _ _ _ 'f' rfl (by decide)⟩

theorem paramsMap_lookup_q (fm : FloatModel)
    (mc : List (String × List String) → String) (q : queryState) :
    assocLookup "q" (paramsMap fm mc q) = some q.queryString := by
  have hne : ∀ kv ∈ ((if q.start > 0 then [("start", toString q.start)] else [])
      ++ ("len", toString q.length) :: paramsAfterLen fm mc q), kv.1 ≠ "q" := by
    intro kv hkv
    rcases List.mem_append.mp hkv with h | h
    · have h2 := mem_ite_nil_elim h
      simp at h2
      rw [h2]
      exact (by decide : ("start" : String) ≠ "q")
    · rcases List.mem_cons.mp h with h2 | h2
      · rw [h2]
        exact (by decide : ("len" : String) ≠ "q")
      · exact (paramsAfterLen_key_ne fm mc q kv h2).1
  have hq : paramsMap fm mc q
      = ((if q.start > 0 then [("start", toString q.start)] else [])
          ++ ("len", toString q.length) :: paramsAfterLen fm mc q).foldl
          (fun p kv => goInsert p kv.1 kv.2) [("q", q.queryString)] := by
    show ((paramsSeq fm mc q).foldl (fun p kv => goInsert p kv.1 kv.2) []) = _
    rw [paramsSeq]
    rfl
  rw [hq, assocLookup_foldl_goInsert_ne _ _ _ hne]
  simp [assocLookup]

theorem paramsMap_lookup_len (fm : FloatModel)
    (mc : List (String × List String) → String) (q : queryState) :
    assocLookup "len" (paramsMap fm mc q) = some (toString q.length) := by
  have hAL : ∀ kv ∈ paramsAfterLen fm mc q, kv.1 ≠ "len" :=
    fun kv h => (paramsAfterLen_key_ne fm mc q kv h).2
  show assocLookup "len" ((paramsSeq fm mc q).foldl (fun p kv => goInsert p kv.1 kv.2) []) = _
  rw [paramsSeq, List.foldl_append, List.foldl_append, List.foldl_append,
      assocLookup_foldl_goInsert_ne _ _ _ hAL]
  exact assocLookup_goInsert_self _ _ _

theorem toQueryString_fold_data (l : List (String × String)) :
    ∀ acc : String,
      (l.foldl (fun s kv => s ++ kv.1 ++ "=" ++ queryEscape kv.2 ++ "&") acc).data
        = acc.data ++ (qsPieces l).foldr (fun p r => p.data ++ '&' :: r) [] := by
  induction l with
  | nil => intro acc; simp [qsPieces]
  | cons kv t ih =>
    intro acc
    rw [List.foldl_cons, ih]
    simp [qsPieces, String.data_append, List.append_assoc,
      show ("&" : String).data = ['&'] from rfl,
      show ("=" : String).data = ['='] from rfl]

theorem ampJoin_foldr_data (ps : List String) :
    ((ps.foldr (fun p r => p.data ++ '&' :: r) []).dropLast) = (ampJoin ps).data := by
  induction ps with
  | nil => rfl
  | cons p t ih =>
    cases t with
    | nil =>
      show ((p.data ++ '&' :: []).dropLast) = p.data
      rw [show p.data ++ '&' :: [] = p.data ++ ['&'] from rfl, List.dropLast_concat]
    | cons p2 t2 =>
      have hF : (p2 :: t2).foldr (fun p r => p.data ++ '&' :: r) [] ≠ [] := by
        rw [List.foldr_cons]
        simp
      rw [List.foldr_cons, List.dropLast_append_of_ne_nil _ (by simp),
          List.dropLast_cons_of_ne_nil hF, ih]
      simp [ampJoin, String.data_append, show ("&" : String).data = ['&'] from rfl]

theorem toQueryString_eq_ampJoin (l : List (String × String)) :
    toQueryString l = ampJoin (qsPieces l) := by
  show String.mk
      ((l.foldl (fun s kv => s ++ kv.1 ++ "=" ++ queryEscape kv.2 ++ "&") "").data.dropLast)
    = ampJoin (qsPieces l)
  rw [toQueryString_fold_data l "", show ("" : String).data = [] from rfl,
      List.nil_append, ampJoin_foldr_data]

theorem perm_pair_eq {α : Type} {l : List α} {a b : α}
    (h : List.Perm l [a, b]) : l = [a, b] ∨ l = [b, a] := by
  have hlen : l.length = 2 := by simpa using h.length_eq
  cases l with
  | nil => simp at hlen
  | cons x t =>
    cases t with
    | nil => simp at hlen
    | cons y t2 =>
      cases t2 with
      | cons z t3 => simp at hlen
      | nil =>
        have hx : a ∈ [x, y] := h.mem_iff.mpr (by simp)
        simp at hx
        rcases hx with hx | hx
        · subst hx
          have h2 := (List.perm_cons a).mp h
          have h3 := List.perm_singleton.mp h2
          simp at h3
          subst h3
          exact Or.inl rfl
        · subst hx
          have hb : b ∈ [x, a] := h.mem_iff.mpr (by simp)
          simp at hb
          rcases hb with hb | hb
          · subst hb
            exact Or.inr rfl
          · subst hb
            have hx2 : x ∈ [b, b] := h.mem_iff.mp (by simp)
            simp at hx2
            subst hx2
            exact Or.inl rfl

theorem paramsMap_queryForString (fm : FloatModel)
    (mc : List (String × List String) → String) (s : String) :
    paramsMap fm mc (QueryForString s) = [("q", s), ("len", "10")] := by
  simp [paramsMap, paramsSeq, paramsAfterLen, QueryForString, goInsert,
    show toString (10 : Int) = "10" from rfl]

/-- C4 counterexample: for the state `QueryForString "x"`, both entry
orders `[q, len]` and `[len, q]` are permutations of the `params` map that
`ToQueryParams` hands to `toQueryString` (Go's map iteration order is
unspecified and may differ between two calls on the same map), yet the two
serializations differ byte-wise — so two calls are NOT guaranteed to
return byte-identical strings. -/
theorem C4_two_orders_differ_cex :
    List.Perm [("q", "x"), ("len", "10")] (paramsMap fmDemo mcDemo (QueryForString "x")) ∧
    List.Perm [("len", "10"), ("q", "x")] (paramsMap fmDemo mcDemo (QueryForString "x")) ∧
    toQueryString [("q", "x"), ("len", "10")] ≠ toQueryString [("len", "10"), ("q", "x")] := by
  refine ⟨?_, ?_, by decide⟩
  · rw [paramsMap_queryForString]
  · rw [paramsMap_queryForString]
    exact List.Perm.swap _ _ _

/-- C4 amended: serialization is deterministic given the map iteration
order, and any serialization of the same unmodified builder state is the
`&`-join of some permutation of the same parameter-piece list — so two
calls agree up to the (unspecified) parameter order; moreover every
serialization contains the required `q` and `len` parameters. -/
theorem C4_serialization_up_to_order (fm : FloatModel)
    (mc : List (String × List String) → String) (q : queryState)
    (o1 o2 : List (String × String))
    (h1 : List.Perm o1 (paramsMap fm mc q))
    (h2 : List.Perm o2 (paramsMap fm mc q)) :
    toQueryString o1 = ampJoin (qsPieces o1) ∧
    List.Perm (qsPieces o1) (qsPieces o2) ∧
    ("q=" ++ queryEscape q.queryString) ∈ qsPieces o1 ∧
    ("len=" ++ queryEscape (toString q.length)) ∈ qsPieces o1 := by
  refine ⟨toQueryString_eq_ampJoin o1, (h1.trans h2.symm).map _, ?_, ?_⟩
  · have hm : ("q", q.queryString) ∈ o1 :=
      h1.mem_iff.mpr (assocLookup_mem _ _ _ (paramsMap_lookup_q fm mc q))
    have := List.mem_map_of_mem (fun kv => kv.1 ++ "=" ++ queryEscape kv.2) hm
    rw [show ("q=" : String) = "q" ++ "=" from by decide]
    exact this
  · have hm : ("len", toString q.length) ∈ o1 :=
      h1.mem_iff.mpr (assocLookup_mem _ _ _ (paramsMap_lookup_len fm mc q))
    have := List.mem_map_of_mem (fun kv => kv.1 ++ "=" ++ queryEscape kv.2) hm
    rw [show ("len=" : String) = "len" ++ "=" from by decide]
    exact this

/-- Witness for C4 amended: both orders taken to be the canonical entry
list of `QueryForString "w"`. -/
theorem C4_serialization_up_to_order_witness :
    toQueryString (paramsMap fmDemo mcDemo (QueryForString "w"))
      = ampJoin (qsPieces (paramsMap fmDemo mcDemo (QueryForString "w"))) ∧
    List.Perm (qsPieces (paramsMap fmDemo mcDemo (QueryForString "w")))
      (qsPieces (paramsMap fmDemo mcDemo (QueryForString "w"))) ∧
    ("q=" ++ queryEscape (QueryForString "w").queryString)
      ∈ qsPieces (paramsMap fmDemo mcDemo (QueryForString "w")) ∧
    ("len=" ++ queryEscape (toString (QueryForString "w").length))
      ∈ qsPieces (paramsMap fmDemo mcDemo (QueryForString "w")) :=
  C4_serialization_up_to_order fmDemo mcDemo (QueryForString "w") _ _
    (List.Perm.refl _) (List.Perm.refl _)

/-- C5 counterexample: for query text `golang` with no optional setters,
the entry order `[len, q]` is a valid Go map iteration order of the
`params` map, and it serializes to `"len=10&q=golang"`, which is not the
exact string `q=<escaped text>&len=10` the claim requires. -/
theorem C5_default_exact_string_cex :
    List.Perm [("len", "10"), ("q", "golang")]
      (paramsMap fmDemo mcDemo (QueryForString "golang")) ∧
    toQueryString [("len", "10"), ("q", "golang")] = "len=10&q=golang" ∧
    ("len=10&q=golang" : String) ≠ "q=" ++ queryEscape "golang" ++ "&len=10" := by
  refine ⟨?_, by decide, by decide⟩
  rw [paramsMap_queryForString]
  exact List.Perm.swap _ _ _

/-- C5 amended: a default `QueryForString` state always has exactly the
parameters `q=<escaped text>` and `len=10`; its serialization is their
`&`-join in one of the two orders (`q=<esc>&len=10` or `len=10&q=<esc>`),
and contains neither a `start` nor a `function` parameter. -/
theorem C5_default_serialization (fm : FloatModel)
    (mc : List (String × List String) → String) (s : String)
    (order : List (String × String))
    (h : List.Perm order (paramsMap fm mc (QueryForString s))) :
    (order = [("q", s), ("len", "10")] ∨ order = [("len", "10"), ("q", s)]) ∧
    toQueryString [("q", s), ("len", "10")] = "q=" ++ queryEscape s ++ "&len=10" ∧
    toQueryString [("len", "10"), ("q", s)] = "len=10&q=" ++ queryEscape s ∧
    "start" ∉ order.map Prod.fst ∧
    "function" ∉ order.map Prod.fst := by
  have horder : order = [("q", s), ("len", "10")] ∨ order = [("len", "10"), ("q", s)] := by
    rw [paramsMap_queryForString] at h
    exact perm_pair_eq h
  refine ⟨horder, ?_, ?_, ?_, ?_⟩
  · rw [toQueryString_eq_ampJoin]
    apply String.ext
    show (("q" ++ "=" ++ queryEscape s) ++ "&" ++ ("len" ++ "=" ++ queryEscape "10")).data
      = ("q=" ++ queryEscape s ++ "&len=10").data
    simp only [String.data_append]
    rw [show (queryEscape "10").data = ['1', '0'] from rfl]
    simp
  · rw [toQueryString_eq_ampJoin]
    apply String.ext
    show (("len" ++ "=" ++ queryEscape "10") ++ "&" ++ ("q" ++ "=" ++ queryEscape s)).data
      = ("len=10&q=" ++ queryEscape s).data
    simp only [String.data_append]
    rw [show (queryEscape "10").data = ['1', '0'] from rfl]
    simp
  · rcases horder with rfl | rfl <;> simp
  · rcases horder with rfl | rfl <;> simp

/-- Witness for C5 amended at `s = "golang"` with the canonical order. -/
theorem C5_default_serialization_witness :
    (paramsMap fmDemo mcDemo (QueryForString "golang") = [("q", "golang"), ("len", "10")]
        ∨ paramsMap fmDemo mcDemo (QueryForString "golang")
            = [("len", "10"), ("q", "golang")]) ∧
    toQueryString [("q", "golang"), ("len", "10")]
      = "q=" ++ queryEscape "golang" ++ "&len=10" ∧
    toQueryString [("len", "10"), ("q", "golang")] = "len=10&q=" ++ queryEscape "golang" ∧
    "start" ∉ (paramsMap fmDemo mcDemo (QueryForString "golang")).map Prod.fst ∧
    "function" ∉ (paramsMap fmDemo mcDemo (QueryForString "golang")).map Prod.fst :=
  C5_default_serialization fmDemo mcDemo "golang" _ (List.Perm.refl _)

/-- C8 counterexample: the uniform policy fails on the code.  `AddDocument`
on a 404 returns the fixed generic message, not the index-does-not-exist
error; and `DeleteDocuments` on the 2xx status 201 returns a generic
failure instead of success (it accepts only 200). -/
theorem C8_uniform_policy_cex :
    addDocumentInterp 404 "" = .error "Unexpected error adding document" ∧
    (Except.error "Unexpected error adding document" : Except String Unit)
      ≠ .error "Index does not exist" ∧
    isOk 201 = true ∧
    DeleteDocuments [] 201 (.ok []) "201 Created"
      = some (.error ("Unexpected " ++ toString (201 : Nat) ++ " error: " ++ "201 Created")) := by
  refine ⟨rfl, ?_, by decide, rfl⟩
  intro h
  have h2 := Except.error.inj h
  exact absurd h2 (by decide)

/-- C8 amended: each mutation call has its own status policy.  All calls
accept 2xx as success except `DeleteDocuments`, which accepts only 200.
`AddDocument`, `AddDocuments`, `UpdateVariables`, `AddFunction` embed a
non-empty 400 body as the error; `DeleteFunction` returns the status text
on 400; `DeleteDocument`/`DeleteDocuments` treat 400 generically.  Only
`DeleteDocument` and `DeleteDocuments` map 404 to the index-does-not-exist
error; the others fall into their generic branch on 404.  Generic failures
carry status and reason for `DeleteDocument`, `DeleteDocuments`,
`AddFunction`, `DeleteFunction`, but are a fixed message without the
status for `AddDocument`, `AddDocuments`, `UpdateVariables`. -/
theorem C8_per_call_status_policy (status : Nat) (body text raw : String)
    (documents : List Document) (r : List addResult)
    (ids : List String) (dr : List deleteResult) :
    (isOk status = true →
      addDocumentInterp status body = .ok () ∧
      updateVariablesInterp status body = .ok () ∧
      addFunctionInterp status body text = .ok () ∧
      deleteFunctionInterp status text = .ok () ∧
      deleteDocumentInterp status text = .ok ()) ∧
    (isOk status = true → documents.length = r.length →
      ∃ bd, AddDocuments documents status (.ok r) raw = .ok bd) ∧
    (body ≠ "" →
      addDocumentInterp 400 body = .error body ∧
      updateVariablesInterp 400 body = .error body ∧
      addFunctionInterp 400 body text = .error body ∧
      AddDocuments documents 400 (.ok r) body = .error body) ∧
    deleteFunctionInterp 400 text = .error text ∧
    deleteDocumentInterp 404 text = .error "Index does not exist" ∧
    DeleteDocuments ids 404 (.ok dr) text = some (.error "Index does not exist") ∧
    (ids.length = dr.length →
      ∃ bd, DeleteDocuments ids 200 (.ok dr) text = some (.ok bd)) ∧
    (isOk status = false → status ≠ 400 →
      addDocumentInterp status body = .error "Unexpected error adding document" ∧
      updateVariablesInterp status body = .error "Unexpected error updating variables" ∧
      AddDocuments documents status (.ok r) raw
        = .error "Unexpected error adding documents batch") ∧
    (isOk status = false → status ≠ 400 →
      addFunctionInterp status body text
        = .error ("Unexpected " ++ toString status ++ " error: " ++ text) ∧
      deleteFunctionInterp status text
        = .error ("Unexpected " ++ toString status ++ " error: " ++ text)) ∧
    (isOk status = false → status ≠ 404 →
      deleteDocumentInterp status text
        = .error ("Unexpected " ++ toString status ++ " error: " ++ text)) ∧
    (status ≠ 200 → status ≠ 404 →
      DeleteDocuments ids status (.ok dr) text
        = some (.error ("Unexpected " ++ toString status ++ " error: " ++ text))) := by
  refine ⟨?_, ?_, ?_, ?_, ?_, ?_, ?_, ?_, ?_, ?_, ?_⟩
  · intro hs
    refine ⟨?_, ?_, ?_, ?_, ?_⟩ <;>
      simp [addDocumentInterp, updateVariablesInterp, addFunctionInterp,
        deleteFunctionInterp, deleteDocumentInterp, hs]
  · intro hs hlen
    have hb : (documents.length != r.length) = false := by simp [hlen]
    refine ⟨⟨(correlateLoop 0 (documents.zip (r.map fun v => (v.Added, v.Error)))).flag,
            (correlateLoop 0 (documents.zip (r.map fun v => (v.Added, v.Error)))).results,
            (correlateLoop 0 (documents.zip (r.map fun v => (v.Added, v.Error)))).errors,
            documents,
            (correlateLoop 0 (documents.zip (r.map fun v => (v.Added, v.Error)))).failed⟩, ?_⟩
    simp [AddDocuments, hs, hb, newBatchResults]
  · intro hb
    have h400 : isOk 400 = false := by decide
    refine ⟨?_, ?_, ?_, ?_⟩ <;>
      simp [addDocumentInterp, updateVariablesInterp, addFunctionInterp, AddDocuments,
        h400, hb]
  · rfl
  · rfl
  · rfl
  · intro hlen
    have hb : (ids.length != dr.length) = false := by simp [hlen]
    refine ⟨⟨(correlateLoop 0 (ids.zip (dr.map fun v => (v.Deleted, v.Error)))).flag,
            (correlateLoop 0 (ids.zip (dr.map fun v => (v.Deleted, v.Error)))).results,
            (correlateLoop 0 (ids.zip (dr.map fun v => (v.Deleted, v.Error)))).errors,
            ids,
            (correlateLoop 0 (ids.zip (dr.map fun v => (v.Deleted, v.Error)))).failed⟩, ?_⟩
    simp [DeleteDocuments, newBulkResults, hb]
  · intro hs h400
    refine ⟨?_, ?_, ?_⟩ <;>
      simp [addDocumentInterp, updateVariablesInterp, AddDocuments, hs, h400]
  · intro hs h400
    refine ⟨?_, ?_⟩ <;>
      simp [addFunctionInterp, deleteFunctionInterp, hs, h400]
  · intro hs h404
    simp [deleteDocumentInterp, hs, h404]
  · intro h200 h404
    simp [DeleteDocuments, h200, h404]

/-- Witness for C8 amended at concrete statuses 204, 400, 404, 200, 500. -/
theorem C8_per_call_status_policy_witness :
    addDocumentInterp 204 "" = .ok () ∧
    (∃ bd, AddDocuments [] 204 (.ok []) "" = .ok bd) ∧
    addDocumentInterp 400 "bad request" = .error "bad request" ∧
    deleteDocumentInterp 404 "404 Not Found" = .error "Index does not exist" ∧
    (∃ bd, DeleteDocuments ["a"] 200 (.ok [⟨true, ""⟩]) "" = some (.ok bd)) ∧
    addDocumentInterp 500 "" = .error "Unexpected error adding document" ∧
    deleteDocumentInterp 500 "500 Internal Server Error"
      = .error ("Unexpected " ++ toString (500 : Nat) ++ " error: "
          ++ "500 Internal Server Error") := by
  have h204 := C8_per_call_status_policy 204 "" "" "" [] [] [] []
  have h400 := C8_per_call_status_policy 400 "bad request" "" "" [] [] [] []
  have h404 := C8_per_call_status_policy 404 "" "404 Not Found" "" [] [] [] []
  have h200 := C8_per_call_status_policy 200 "" "" "" [] [] ["a"] [⟨true, ""⟩]
  have h500 := C8_per_call_status_policy 500 "" "500 Internal Server Error" "" [] [] [] []
  exact ⟨(h204.1 (by decide)).1,
         h204.2.1 (by decide) (by decide),
         (h400.2.2.1 (by decide)).1,
         h404.2.2.2.2.1,
         h200.2.2.2.2.2.2.1 (by decide),
         (h500.2.2.2.2.2.2.2.1 (by decide) (by decide)).1,
         h500.2.2.2.2.2.2.2.2.2.1 (by decide) (by decide)⟩
